import Mathlib

/-!
Verification of the driving-school enrollment and scheduling core of
`backend/server.py` against its natural-language specification.

The embedding below is a shallow, executable model of the route handlers
`create_course`, `create_schedule`, `create_exam`, `update_exam` and
`update_payment`, together with the entity records they read and write.
MongoDB collections are modelled as Lean lists kept in insertion order:
`find_one` becomes `List.find?` (first match), `insert_one` becomes an
append, and `update_one` becomes an update of the first matching element.
Opaque generated identifiers (uuid4, random tokens) are modelled by a
fresh-id counter carried in the database state. Datetimes are modelled as
minutes since an arbitrary epoch (an `Int`); the source truncation
`replace(minute=0, second=0, microsecond=0)` becomes flooring to a
multiple of 60, and `replace(hour=0, ...)` flooring to a multiple of 1440.
Float-valued prices and amounts are only ever copied, never computed with,
and are modelled as `Rat`. Inert profile fields that no core rule reads
(names, emails, addresses, timestamps of record creation, ...) are omitted
from the records.
-/

/-- Role of a user account, from the `UserRole` enum of the source. -/
inductive UserRole where
  | student
  | teacher
  | manager
  | admin
deriving DecidableEq, Repr

/-- Gender of a user, from the `Gender` enum of the source. -/
inductive Gender where
  | male
  | female
  | other
deriving DecidableEq, Repr

/-- Stage of the driving curriculum, from the `CourseType` enum. -/
inductive CourseType where
  | code
  | parking
  | road
deriving DecidableEq, Repr

/-- Progress state of a course, from the `CourseStatus` enum. -/
inductive CourseStatus where
  | not_started
  | in_progress
  | completed
  | failed
deriving DecidableEq, Repr

/-- State of an exam, from the `ExamStatus` enum. -/
inductive ExamStatus where
  | scheduled
  | passed
  | failed
deriving DecidableEq, Repr

/-- State of a payment, from the `PaymentStatus` enum. -/
inductive PaymentStatus where
  | pending
  | completed
  | failed
  | refunded
deriving DecidableEq, Repr

/-- A user account; the fields of the source `User` model that the core
rules read (identity, role, gender). -/
structure User where
  id : Nat
  role : UserRole
  gender : Gender
deriving DecidableEq, Repr

/-- A teacher record linking a user to a school, from the `Teacher` model.
The `gender` field is denormalized from the linked user, as in the source;
note that `create_course` checks the linked user gender, not this field. -/
structure Teacher where
  id : Nat
  user_id : Nat
  driving_school_id : Nat
  gender : Gender
deriving DecidableEq, Repr

/-- A driving school, from the `DrivingSchool` model; the core reads only
its identity and its per-course-type price table. -/
structure DrivingSchool where
  id : Nat
  manager_id : Nat
  price_code : Rat
  price_parking : Rat
  price_road : Rat
deriving DecidableEq, Repr

/-- A course record, from the `Course` model. -/
structure Course where
  id : Nat
  type : CourseType
  student_id : Nat
  teacher_id : Nat
  driving_school_id : Nat
  status : CourseStatus
  start_date : Option Int
  completion_date : Option Int
  google_meet_link : Option String
deriving DecidableEq, Repr

/-- A booked time slot, from the `Schedule` model. `date` is the slot
start in minutes; `duration_minutes` its length. -/
structure Schedule where
  id : Nat
  course_id : Nat
  date : Int
  duration_minutes : Int
deriving DecidableEq, Repr

/-- An exam record, from the `Exam` model. -/
structure Exam where
  id : Nat
  course_id : Nat
  date : Int
  status : ExamStatus
  score : Option Rat
  feedback : Option String
deriving DecidableEq, Repr

/-- A payment record, from the `Payment` model. -/
structure Payment where
  id : Nat
  course_id : Nat
  amount : Rat
  status : PaymentStatus
  transaction_id : Option String
deriving DecidableEq, Repr

/-- The persistent state: the MongoDB collections the core touches, as
lists in insertion order, plus a counter supplying fresh opaque ids
(modelling uuid4 and random token generation). -/
structure DB where
  users : List User
  teachers : List Teacher
  driving_schools : List DrivingSchool
  courses : List Course
  schedules : List Schedule
  exams : List Exam
  payments : List Payment
  nextId : Nat
deriving DecidableEq, Repr

/-- Body of a POST /courses request, from the `CourseCreate` model. As in
the source, the request model inherits `status`, `start_date` and
`completion_date` from `CourseBase` with defaults, so a caller may supply
them explicitly. -/
structure CourseCreate where
  type : CourseType
  student_id : Nat
  teacher_id : Nat
  driving_school_id : Nat
  status : CourseStatus := CourseStatus.not_started
  start_date : Option Int := none
  completion_date : Option Int := none
deriving DecidableEq, Repr

/-- Body of a POST /schedules request, from the `ScheduleCreate` model. -/
structure ScheduleCreate where
  course_id : Nat
  date : Int
  duration_minutes : Int := 60
deriving DecidableEq, Repr

/-- Body of a POST /exams request, from the `ExamCreate` model. -/
structure ExamCreate where
  course_id : Nat
  date : Int
  status : ExamStatus := ExamStatus.scheduled
deriving DecidableEq, Repr

/-- The distinct rejection outcomes of the modelled handlers. Each
constructor corresponds to one `HTTPException` site of the source; the
comments give the HTTP code and detail string. `internalError` models an
uncaught Python exception surfacing as HTTP 500. It arises in two ways:
the `TypeError` in `create_course` when the teacher record points at a
missing user (the source indexes into `None`), and every rejection site
inside `update_exam` and `update_payment` — those two handlers declare a
parameter named `status` that shadows the `status` module imported from
fastapi, so evaluating `status.HTTP_403_FORBIDDEN` or
`status.HTTP_404_NOT_FOUND` at their raise sites throws `AttributeError`
before the intended `HTTPException` is constructed. -/
inductive ApiError where
  /-- 400 Invalid student_id (missing user or role not student). -/
  | invalidStudentId
  /-- 400 Invalid teacher_id. -/
  | invalidTeacherId
  /-- 400 Invalid driving_school_id. -/
  | invalidSchoolId
  /-- 400 Teacher and student genders must match. -/
  | genderMismatch
  /-- 400 Student already enrolled in a course of this type. -/
  | duplicateEnrollment
  /-- 400 Student must complete the prerequisite course first. -/
  | prerequisiteNotMet
  /-- 403 Forbidden: role lacks permission or ownership mismatch. -/
  | forbidden
  /-- 400 Invalid course_id. -/
  | invalidCourseId
  /-- 400 Teacher not found for this course. -/
  | teacherNotFoundForCourse
  /-- 400 Teacher already has a student scheduled for this time. -/
  | slotTaken
  /-- 400 Maximum number of CODE students scheduled for this time. -/
  | capacityExceeded
  /-- 400 Maximum number of PARKING or ROAD students for this day. -/
  | dailyCapacityExceeded
  /-- 500 Unhandled exception in the source handler. -/
  | internalError
deriving DecidableEq, Repr

/-- Boolean test of whether an `Except` result is a success. -/
def exceptIsOk : Except ApiError α → Bool
  | Except.ok _ => true
  | Except.error _ => false

/-- Floor of a time to the top of its hour: the model of
`date.replace(minute=0, second=0, microsecond=0)` over minutes. -/
def hourFloor (t : Int) : Int := t - t.emod 60

/-- Floor of a time to midnight of its day: the model of
`date.replace(hour=0, minute=0, second=0, microsecond=0)` over minutes. -/
def dayFloor (t : Int) : Int := t - t.emod 1440

/-- Update of the first element of a list satisfying `p` by `f`: the model
of MongoDB `update_one`. -/
def updateFirst (p : α → Bool) (f : α → α) : List α → List α
  | [] => []
  | x :: xs => if p x then f x :: xs else x :: updateFirst p f xs

/-- Existence of a non-failed course of the given type for the student:
the truthiness of the `find_one` duplicate-enrollment query of
`create_course`. -/
def hasNonFailed (db : DB) (sid : Nat) (ty : CourseType) : Bool :=
  (db.courses.find? fun c =>
    c.student_id == sid && c.type == ty && c.status != CourseStatus.failed).isSome

/-- Existence of a completed course of the given type for the student:
the truthiness of the `find_one` prerequisite query of `create_course`. -/
def hasCompleted (db : DB) (sid : Nat) (ty : CourseType) : Bool :=
  (db.courses.find? fun c =>
    c.student_id == sid && c.type == ty && c.status == CourseStatus.completed).isSome

/-- Price of a course of the given type at a school, from the inline
`if/elif` price selection of `create_course`. -/
def coursePrice (school : DrivingSchool) : CourseType → Rat
  | CourseType.code => school.price_code
  | CourseType.parking => school.price_parking
  | CourseType.road => school.price_road

/-- The course record `create_course` builds on success: fields copied
from the request, a fresh id, and a generated meeting link for `code`
courses (the opaque random token is modelled from the fresh id). -/
def newCourseOf (db : DB) (course : CourseCreate) : Course :=
  { id := db.nextId
    type := course.type
    student_id := course.student_id
    teacher_id := course.teacher_id
    driving_school_id := course.driving_school_id
    status := course.status
    start_date := course.start_date
    completion_date := course.completion_date
    google_meet_link :=
      if course.type == CourseType.code then
        some ("https://meet.google.com/" ++ toString db.nextId)
      else none }

/-- The state after a successful `create_course`: the new course and its
companion pending payment appended, two fresh ids consumed. -/
def enrollState (db : DB) (course : CourseCreate) (school : DrivingSchool) : DB :=
  let new_course := newCourseOf db course
  let payment : Payment :=
    { id := db.nextId + 1
      course_id := new_course.id
      amount := coursePrice school course.type
      status := PaymentStatus.pending
      transaction_id := none }
  { db with
    courses := db.courses ++ [new_course]
    payments := db.payments ++ [payment]
    nextId := db.nextId + 2 }

/-- Model of the POST /courses handler `create_course` (server.py lines
412 to 536). Checks in source order: student exists with role student;
teacher exists; school exists; gender of the teacher-linked user equals
the student gender; then the per-type prerequisite and duplicate checks;
on success the new course and a pending payment priced from the school
table are inserted. The authenticated caller `current_user` is bound by
the handler signature but never read in its body. -/
def create_course (db : DB) (current_user : User) (course : CourseCreate) :
    Except ApiError (Course × DB) :=
  match db.users.find? (fun u => u.id == course.student_id) with
  | none => Except.error ApiError.invalidStudentId
  | some student =>
    if student.role != UserRole.student then Except.error ApiError.invalidStudentId
    else
      match db.teachers.find? (fun t => t.id == course.teacher_id) with
      | none => Except.error ApiError.invalidTeacherId
      | some teacher =>
        match db.driving_schools.find? (fun s => s.id == course.driving_school_id) with
        | none => Except.error ApiError.invalidSchoolId
        | some school =>
          match db.users.find? (fun u => u.id == teacher.user_id) with
          | none => Except.error ApiError.internalError
          | some teacher_user =>
            if teacher_user.gender != student.gender then
              Except.error ApiError.genderMismatch
            else
              match course.type with
              | CourseType.code =>
                if hasNonFailed db course.student_id CourseType.code then
                  Except.error ApiError.duplicateEnrollment
                else
                  Except.ok (newCourseOf db course, enrollState db course school)
              | CourseType.parking =>
                if !hasCompleted db course.student_id CourseType.code then
                  Except.error ApiError.prerequisiteNotMet
                else if hasNonFailed db course.student_id CourseType.parking then
                  Except.error ApiError.duplicateEnrollment
                else
                  Except.ok (newCourseOf db course, enrollState db course school)
              | CourseType.road =>
                if !hasCompleted db course.student_id CourseType.parking then
                  Except.error ApiError.prerequisiteNotMet
                else if hasNonFailed db course.student_id CourseType.road then
                  Except.error ApiError.duplicateEnrollment
                else
                  Except.ok (newCourseOf db course, enrollState db course school)

/-- Ids of all courses taught by the given teacher: the model of the
`teacher_courses` query of `create_schedule`. -/
def teacherCourseIds (db : DB) (tid : Nat) : List Nat :=
  (db.courses.filter (fun c => c.teacher_id == tid)).map (fun c => c.id)

/-- The existing schedules of a teacher whose stored start time lies in
`[ns, ed)`: the model of the `existing_schedules` query of
`create_schedule` (a range filter on the stored `date` field combined
with a course-id membership filter). -/
def windowSchedules (db : DB) (tid : Nat) (ns ed : Int) : List Schedule :=
  db.schedules.filter (fun s =>
    (teacherCourseIds db tid).contains s.course_id && ns ≤ s.date && s.date < ed)

/-- Type of the course a record points at, when that course resolves: the
model of the per-schedule `find_one` lookup in the daily-count loop. -/
def courseTypeOf (db : DB) (cid : Nat) : Option CourseType :=
  (db.courses.find? (fun c => c.id == cid)).map (fun c => c.type)

/-- Number of schedules of the teacher on the day starting at `day` whose
owning course has type `ty`: the model of the `day_course_types` tally of
`create_schedule`. -/
def dayTypeCount (db : DB) (tid : Nat) (day : Int) (ty : CourseType) : Nat :=
  (db.schedules.filter (fun s =>
    day ≤ s.date && s.date < day + 1440 &&
    (teacherCourseIds db tid).contains s.course_id &&
    courseTypeOf db s.course_id == some ty)).length

/-- The schedule record `create_schedule` inserts on success: fields
copied from the request, including the raw (un-normalized) `date`. -/
def newScheduleOf (db : DB) (schedule : ScheduleCreate) : Schedule :=
  { id := db.nextId
    course_id := schedule.course_id
    date := schedule.date
    duration_minutes := schedule.duration_minutes }

/-- The state after a successful `create_schedule`. -/
def bookState (db : DB) (schedule : ScheduleCreate) : DB :=
  { db with
    schedules := db.schedules ++ [newScheduleOf db schedule]
    nextId := db.nextId + 1 }

/-- Model of the POST /schedules handler `create_schedule` (server.py
lines 583 to 695). Checks in source order: caller role in manager,
teacher, admin; course exists; teacher of the course exists; a teacher
caller must own the course; then, with the request start normalized to
the top of the hour, the per-slot and per-day capacity checks over the
schedules of that teacher; on success the request is persisted with its
raw start time and duration. In the source the capacity checks run only
when the teacher has at least one course, and the tally of day schedules
by course type (a dict built by per-record lookups) is modelled by
`dayTypeCount`. -/
def create_schedule (db : DB) (current_user : User) (schedule : ScheduleCreate) :
    Except ApiError (Schedule × DB) :=
  if !(current_user.role == UserRole.manager || current_user.role == UserRole.teacher
        || current_user.role == UserRole.admin) then
    Except.error ApiError.forbidden
  else
    match db.courses.find? (fun c => c.id == schedule.course_id) with
    | none => Except.error ApiError.invalidCourseId
    | some course =>
      match db.teachers.find? (fun t => t.id == course.teacher_id) with
      | none => Except.error ApiError.teacherNotFoundForCourse
      | some _ =>
        let ownership_ok : Bool :=
          if current_user.role == UserRole.teacher then
            match db.teachers.find? (fun t => t.user_id == current_user.id) with
            | none => false
            | some teacher_record => teacher_record.id == course.teacher_id
          else true
        if !ownership_ok then Except.error ApiError.forbidden
        else
          let schedule_date := hourFloor schedule.date
          let end_date := schedule_date + schedule.duration_minutes
          let teacher_course_ids := teacherCourseIds db course.teacher_id
          if teacher_course_ids.isEmpty then
            Except.ok (newScheduleOf db schedule, bookState db schedule)
          else
            let existing_schedules :=
              windowSchedules db course.teacher_id schedule_date end_date
            if course.type == CourseType.code then
              if existing_schedules.length ≥ 20 then
                Except.error ApiError.capacityExceeded
              else
                Except.ok (newScheduleOf db schedule, bookState db schedule)
            else
              if !existing_schedules.isEmpty then
                Except.error ApiError.slotTaken
              else
                let day_start := dayFloor schedule_date
                if course.type == CourseType.parking &&
                    dayTypeCount db course.teacher_id day_start CourseType.parking ≥ 3 then
                  Except.error ApiError.dailyCapacityExceeded
                else if course.type == CourseType.road &&
                    dayTypeCount db course.teacher_id day_start CourseType.road ≥ 3 then
                  Except.error ApiError.dailyCapacityExceeded
                else
                  Except.ok (newScheduleOf db schedule, bookState db schedule)

/-- Model of the POST /exams handler `create_exam` (server.py lines 755
to 788): caller role in manager, teacher, admin; course exists; a teacher
caller must own the course; inserts the exam with fields from the
request and empty score and feedback. -/
def create_exam (db : DB) (current_user : User) (exam : ExamCreate) :
    Except ApiError (Exam × DB) :=
  if !(current_user.role == UserRole.manager || current_user.role == UserRole.teacher
        || current_user.role == UserRole.admin) then
    Except.error ApiError.forbidden
  else
    match db.courses.find? (fun c => c.id == exam.course_id) with
    | none => Except.error ApiError.invalidCourseId
    | some course =>
      let ownership_ok : Bool :=
        if current_user.role == UserRole.teacher then
          match db.teachers.find? (fun t => t.user_id == current_user.id) with
          | none => false
          | some teacher => teacher.id == course.teacher_id
        else true
      if !ownership_ok then Except.error ApiError.forbidden
      else
        let new_exam : Exam :=
          { id := db.nextId
            course_id := exam.course_id
            date := exam.date
            status := exam.status
            score := none
            feedback := none }
        Except.ok (new_exam,
          { db with exams := db.exams ++ [new_exam], nextId := db.nextId + 1 })

/-- The field update `update_exam` applies to the exam record: status is
always written; score and feedback only when supplied. -/
def applyExamUpdate (stat : ExamStatus) (score : Option Rat) (feedback : Option String)
    (e : Exam) : Exam :=
  { e with
    status := stat
    score := match score with | some s => some s | none => e.score
    feedback := match feedback with | some f => some f | none => e.feedback }

/-- Course list after the exam-outcome propagation of `update_exam`: a
passed exam forces the owning course to completed, a failed exam to
failed, and a scheduled status leaves courses untouched. -/
def propagateExamOutcome (stat : ExamStatus) (cid : Nat) (courses : List Course) :
    List Course :=
  if stat == ExamStatus.passed then
    updateFirst (fun c => c.id == cid)
      (fun c => { c with status := CourseStatus.completed }) courses
  else if stat == ExamStatus.failed then
    updateFirst (fun c => c.id == cid)
      (fun c => { c with status := CourseStatus.failed }) courses
  else courses

/-- Model of the PUT /exams handler `update_exam` (server.py lines 790
to 852). Checks in source order: caller role in manager, teacher, admin;
exam exists; its course exists; a teacher caller must own the course.
Then the exam fields are written, the outcome is propagated onto the
course status unconditionally, and the updated exam is re-fetched and
returned. The handler parameter `status` shadows the fastapi `status`
module, so every one of its rejection sites crashes with
`AttributeError` while building the intended 403/404 response and
surfaces HTTP 500 instead: all four rejection branches are therefore
`internalError`, and no write has happened when they fire. -/
def update_exam (db : DB) (current_user : User) (exam_id : Nat)
    (stat : ExamStatus) (score : Option Rat) (feedback : Option String) :
    Except ApiError (Exam × DB) :=
  if !(current_user.role == UserRole.manager || current_user.role == UserRole.teacher
        || current_user.role == UserRole.admin) then
    Except.error ApiError.internalError
  else
    match db.exams.find? (fun e => e.id == exam_id) with
    | none => Except.error ApiError.internalError
    | some exam =>
      match db.courses.find? (fun c => c.id == exam.course_id) with
      | none => Except.error ApiError.internalError
      | some course =>
        let ownership_ok : Bool :=
          if current_user.role == UserRole.teacher then
            match db.teachers.find? (fun t => t.user_id == current_user.id) with
            | none => false
            | some teacher => teacher.id == course.teacher_id
          else true
        if !ownership_ok then Except.error ApiError.internalError
        else
          let exams2 := updateFirst (fun e => e.id == exam_id)
            (applyExamUpdate stat score feedback) db.exams
          let courses2 := propagateExamOutcome stat course.id db.courses
          let db2 := { db with exams := exams2, courses := courses2 }
          match exams2.find? (fun e => e.id == exam_id) with
          | none => Except.error ApiError.internalError
          | some updated_exam => Except.ok (updated_exam, db2)

/-- Model of the PUT /payments handler `update_payment` (server.py lines
929 to 971). Checks in source order: payment exists; its course exists;
the caller must be admin, manager, or the student owning the course. The
payment status is written; when the new status is completed and the
course status read before the write is exactly not_started, the course
moves to in_progress; the updated payment is re-fetched and returned.
As in `update_exam`, the handler parameter `status` shadows the fastapi
`status` module, so its three rejection sites crash with
`AttributeError` and surface HTTP 500 instead of the intended 404/403:
all rejection branches are `internalError`, firing before any write. -/
def update_payment (db : DB) (current_user : User) (payment_id : Nat)
    (stat : PaymentStatus) : Except ApiError (Payment × DB) :=
  match db.payments.find? (fun p => p.id == payment_id) with
  | none => Except.error ApiError.internalError
  | some payment =>
    match db.courses.find? (fun c => c.id == payment.course_id) with
    | none => Except.error ApiError.internalError
    | some course =>
      if current_user.role != UserRole.admin && current_user.role != UserRole.manager
          && current_user.id != course.student_id then
        Except.error ApiError.internalError
      else
        let payments2 := updateFirst (fun p => p.id == payment_id)
          (fun p => { p with status := stat }) db.payments
        let courses2 :=
          if stat == PaymentStatus.completed && course.status == CourseStatus.not_started then
            updateFirst (fun c => c.id == course.id)
              (fun c => { c with status := CourseStatus.in_progress }) db.courses
          else db.courses
        let db2 := { db with payments := payments2, courses := courses2 }
        match payments2.find? (fun p => p.id == payment_id) with
        | none => Except.error ApiError.internalError
        | some updated_payment => Except.ok (updated_payment, db2)

/-- The prerequisite gate of `create_course` for a course type: code has
none, parking needs a completed code course, road a completed parking
course. -/
def prereqOK (db : DB) (sid : Nat) : CourseType → Bool
  | CourseType.code => true
  | CourseType.parking => hasCompleted db sid CourseType.code
  | CourseType.road => hasCompleted db sid CourseType.parking

/-- Number of non-failed courses of one type held by one student. -/
def countNonFailed (db : DB) (sid : Nat) (ty : CourseType) : Nat :=
  (db.courses.filter (fun c =>
    c.student_id == sid && c.type == ty && c.status != CourseStatus.failed)).length

/-- Status of the course with the given id, when it resolves. -/
def courseStatusOf (db : DB) (cid : Nat) : Option CourseStatus :=
  (db.courses.find? (fun c => c.id == cid)).map (fun c => c.status)

/-- Overlap of the `[date, date+duration)` intervals of two schedules. -/
def schedIntervalsOverlap (a b : Schedule) : Bool :=
  a.date < b.date + b.duration_minutes && b.date < a.date + a.duration_minutes

/-- Whether a schedule belongs to a parking or road course of the given
teacher. -/
def practicalOwned (db : DB) (tid : Nat) (s : Schedule) : Bool :=
  match db.courses.find? (fun c => c.id == s.course_id) with
  | some c => c.teacher_id == tid &&
      (c.type == CourseType.parking || c.type == CourseType.road)
  | none => false

/-- Existence of two distinct schedules of parking or road courses of the
same teacher whose intervals overlap. -/
def hasOverlappingPracticalPair (db : DB) (tid : Nat) : Bool :=
  db.schedules.any (fun a => db.schedules.any (fun b =>
    a.id != b.id && practicalOwned db tid a && practicalOwned db tid b &&
    schedIntervalsOverlap a b))

/-- Agreement of two course records on every field except `status`. -/
def sameExceptStatus (a b : Course) : Prop :=
  a.id = b.id ∧ a.type = b.type ∧ a.student_id = b.student_id ∧
  a.teacher_id = b.teacher_id ∧ a.driving_school_id = b.driving_school_id ∧
  a.start_date = b.start_date ∧ a.completion_date = b.completion_date ∧
  a.google_meet_link = b.google_meet_link

instance (a b : Course) : Decidable (sameExceptStatus a b) := by
  unfold sameExceptStatus; infer_instance

/-- A male student account, used by the concrete scenarios. -/
def studentA : User := { id := 1, role := UserRole.student, gender := Gender.male }

/-- The user account behind the teacher record, role teacher, male. -/
def teacherUser : User := { id := 2, role := UserRole.teacher, gender := Gender.male }

/-- A second, unrelated student account, female. -/
def studentB : User := { id := 3, role := UserRole.student, gender := Gender.female }

/-- A manager account. -/
def managerUser : User := { id := 4, role := UserRole.manager, gender := Gender.male }

/-- An admin account. -/
def adminUser : User := { id := 5, role := UserRole.admin, gender := Gender.male }

/-- The teacher record of `teacherUser` at `schoolA`. -/
def teacherA : Teacher :=
  { id := 10, user_id := 2, driving_school_id := 20, gender := Gender.male }

/-- A driving school with a concrete price table. -/
def schoolA : DrivingSchool :=
  { id := 20, manager_id := 4, price_code := 100, price_parking := 200, price_road := 300 }

/-- The base state for the concrete scenarios: the seed accounts, one
teacher, one school, and no courses, schedules, exams or payments yet. -/
def baseDB : DB :=
  { users := [studentA, teacherUser, studentB, managerUser, adminUser]
    teachers := [teacherA]
    driving_schools := [schoolA]
    courses := []
    schedules := []
    exams := []
    payments := []
    nextId := 100 }

/-- An enrollment request of `studentA` for a code course with `teacherA`
at `schoolA`, with the request defaults. -/
def codeReqA : CourseCreate :=
  { type := CourseType.code, student_id := 1, teacher_id := 10, driving_school_id := 20 }

/-- The analogous parking enrollment request. -/
def parkingReqA : CourseCreate :=
  { type := CourseType.parking, student_id := 1, teacher_id := 10, driving_school_id := 20 }

/-- An enrollment request of the female `studentB` with the male
`teacherA`. -/
def codeReqB : CourseCreate :=
  { type := CourseType.code, student_id := 3, teacher_id := 10, driving_school_id := 20 }

/-- Extraction of the final state of a scenario, with `baseDB` as the
fallback on failure (the accompanying theorems separately assert that the
scenario succeeded). -/
def dbOf (r : Except ApiError DB) : DB :=
  match r with
  | Except.ok db => db
  | Except.error _ => baseDB

/-- Extraction of the created schedule of a booking outcome. -/
def schedOf (r : Except ApiError (Schedule × DB)) : Schedule :=
  match r with
  | Except.ok (s, _) => s
  | Except.error _ => { id := 0, course_id := 0, date := 0, duration_minutes := 0 }

/-- Scenario for the live-course invariant: enroll in code, record the
exam failed, re-enroll (permitted after failure), then re-record the same
exam passed, which resurrects the first course to completed. -/
def traceLiveCourses : Except ApiError DB := do
  let (c1, db1) ← create_course baseDB studentA codeReqA
  let (e1, db2) ← create_exam db1 teacherUser { course_id := c1.id, date := 0 }
  let (_, db3) ← update_exam db2 teacherUser e1.id ExamStatus.failed none none
  let (_, db4) ← create_course db3 studentA codeReqA
  let (_, db5) ← update_exam db4 teacherUser e1.id ExamStatus.passed none none
  pure db5

/-- Scenario for the overlap invariant: complete a code course, enroll in
parking, book the parking course at minute 540 for 120 minutes, then book
it again at minute 600 for 60 minutes. The second booking is admitted
because the first schedule starts before the checked window, yet the two
intervals overlap on `[600, 660)`. -/
def traceOverlap : Except ApiError DB := do
  let (c1, db1) ← create_course baseDB studentA codeReqA
  let (e1, db2) ← create_exam db1 teacherUser { course_id := c1.id, date := 0 }
  let (_, db3) ← update_exam db2 teacherUser e1.id ExamStatus.passed none none
  let (cp, db4) ← create_course db3 studentA parkingReqA
  let (_, db5) ← create_schedule db4 teacherUser
    { course_id := cp.id, date := 540, duration_minutes := 120 }
  let (_, db6) ← create_schedule db5 teacherUser
    { course_id := cp.id, date := 600, duration_minutes := 60 }
  pure db6

/-- Scenario for the persisted start time: enroll in code and book the
course at minute 570 (half past the hour). -/
def traceRawDate : Except ApiError (Schedule × DB) := do
  let (c1, db1) ← create_course baseDB studentA codeReqA
  create_schedule db1 teacherUser { course_id := c1.id, date := 570, duration_minutes := 60 }

/-- A failed code course of `studentA`, used as a pre-existing record in
the witness states. -/
def failedCodeCourse : Course :=
  { id := 50, type := CourseType.code, student_id := 1, teacher_id := 10
    driving_school_id := 20, status := CourseStatus.failed
    start_date := none, completion_date := none, google_meet_link := none }

/-- A completed code course of `studentA`. -/
def completedCodeCourse : Course :=
  { id := 51, type := CourseType.code, student_id := 1, teacher_id := 10
    driving_school_id := 20, status := CourseStatus.completed
    start_date := none, completion_date := none, google_meet_link := none }

/-- Base state extended with one failed code course of `studentA`. -/
def dbFailedCode : DB := { baseDB with courses := [failedCodeCourse] }

/-- Base state extended with one completed code course of `studentA`. -/
def dbCompletedCode : DB := { baseDB with courses := [completedCodeCourse] }

/-- An in-progress parking course of `studentA` with `teacherA`. -/
def parkingCourseA : Course :=
  { id := 60, type := CourseType.parking, student_id := 1, teacher_id := 10
    driving_school_id := 20, status := CourseStatus.in_progress
    start_date := none, completion_date := none, google_meet_link := none }

/-- Base state extended with the parking course `parkingCourseA`. -/
def dbWithParking : DB := { baseDB with courses := [parkingCourseA] }

/-- A booking request for `parkingCourseA` at minute 540, one hour. -/
def bookReqA : ScheduleCreate := { course_id := 60, date := 540, duration_minutes := 60 }

/-- A booking request for `parkingCourseA` at minute 570 (half past). -/
def bookReqB : ScheduleCreate := { course_id := 60, date := 570, duration_minutes := 60 }

/-- A not-yet-started code course of `studentA` with `teacherA`. -/
def notStartedCodeCourse : Course :=
  { id := 70, type := CourseType.code, student_id := 1, teacher_id := 10
    driving_school_id := 20, status := CourseStatus.not_started
    start_date := none, completion_date := none, google_meet_link := none }

/-- A scheduled exam on `notStartedCodeCourse`. -/
def examA : Exam :=
  { id := 80, course_id := 70, date := 0, status := ExamStatus.scheduled
    score := none, feedback := none }

/-- A pending payment on `notStartedCodeCourse`. -/
def paymentA : Payment :=
  { id := 90, course_id := 70, amount := 100, status := PaymentStatus.pending
    transaction_id := none }

/-- Base state extended with a course, its exam and its payment. -/
def dbExamPay : DB :=
  { baseDB with courses := [notStartedCodeCourse], exams := [examA], payments := [paymentA] }

/-- Extraction of the created course of an enrollment outcome. -/
def courseOf (r : Except ApiError (Course × DB)) : Course :=
  match r with
  | Except.ok (c, _) => c
  | Except.error _ => failedCodeCourse

/-- An enrollment request that explicitly supplies a start date, as the
request model permits. -/
def codeReqDated : CourseCreate :=
  { type := CourseType.code, student_id := 1, teacher_id := 10, driving_school_id := 20
    start_date := some 123 }

/- ## Helper lemmas about `updateFirst` and the id queries -/

theorem updateFirst_find?_self (p : α → Bool) (f : α → α) (l : List α)
    (hpf : ∀ a, p (f a) = p a) :
    (updateFirst p f l).find? p = (l.find? p).map f := by
  induction l with
  | nil => rfl
  | cons x xs ih =>
    simp only [updateFirst]
    by_cases hp : p x
    · rw [if_pos hp, List.find?_cons_of_pos _ (by rw [hpf]; exact hp),
        List.find?_cons_of_pos _ hp]
      rfl
    · rw [if_neg hp, List.find?_cons_of_neg _ (by simpa using hp),
        List.find?_cons_of_neg _ (by simpa using hp), ih]

theorem updateFirst_idem (p : α → Bool) (f : α → α) (l : List α)
    (hpf : ∀ a, p (f a) = p a) (hff : ∀ a, f (f a) = f a) :
    updateFirst p f (updateFirst p f l) = updateFirst p f l := by
  induction l with
  | nil => rfl
  | cons x xs ih =>
    simp only [updateFirst]
    by_cases hp : p x
    · rw [if_pos hp]
      simp only [updateFirst]
      rw [if_pos (by rw [hpf]; exact hp), hff]
    · rw [if_neg hp]
      simp only [updateFirst]
      rw [if_neg hp, ih]

theorem updateFirst_forall₂ (R : α → α → Prop) (p : α → Bool) (f : α → α) (l : List α)
    (hrefl : ∀ a, R a a) (hf : ∀ a, R a (f a)) :
    List.Forall₂ R l (updateFirst p f l) := by
  induction l with
  | nil => exact List.Forall₂.nil
  | cons x xs ih =>
    simp only [updateFirst]
    by_cases hp : p x
    · rw [if_pos hp]
      exact List.Forall₂.cons (hf x) (List.forall₂_same.mpr (fun a _ => hrefl a))
    · rw [if_neg hp]
      exact List.Forall₂.cons (hrefl x) ih

theorem mem_teacherCourseIds (db : DB) (course : Course) (h : course ∈ db.courses) :
    course.id ∈ teacherCourseIds db course.teacher_id := by
  unfold teacherCourseIds
  exact List.mem_map_of_mem _ (List.mem_filter.mpr ⟨h, by simp⟩)

theorem teacherCourseIds_ne_nil (db : DB) (course : Course) (h : course ∈ db.courses) :
    teacherCourseIds db course.teacher_id ≠ [] :=
  List.ne_nil_of_mem (mem_teacherCourseIds db course h)

/- ## Claim C1: at most one non-failed course per student and type -/

/-- C1, counterexample to the claim as stated: the invariant that a
student holds at most one non-failed course per type at any time is not
preserved by the system. In the concrete reachable scenario
`traceLiveCourses` (enroll in code, fail the exam, re-enroll, then
re-record the same exam as passed) the final state holds two non-failed
code courses of student 1. -/
theorem C1_live_invariant_cex :
    exceptIsOk traceLiveCourses = true ∧
    2 ≤ countNonFailed (dbOf traceLiveCourses) 1 CourseType.code := by decide

/-- C1 (amended): `create_course` itself enforces the one-live-course
rule. For a request that passes the entity, role, gender and prerequisite
checks: when the student already holds a non-failed course of the
requested type the call fails with DuplicateEnrollment and creates
nothing (errors abort before any insert), and when every same-type course
of the student is failed (or none exists) the enrollment succeeds and
appends exactly the new course and its pending payment. -/
theorem C1_enroll_guard (db : DB) (cu : User) (req : CourseCreate)
    (student : User) (teacher : Teacher) (school : DrivingSchool) (tu : User)
    (hs : db.users.find? (fun u => u.id == req.student_id) = some student)
    (hrole : student.role = UserRole.student)
    (ht : db.teachers.find? (fun t => t.id == req.teacher_id) = some teacher)
    (hd : db.driving_schools.find? (fun s => s.id == req.driving_school_id) = some school)
    (hu : db.users.find? (fun u => u.id == teacher.user_id) = some tu)
    (hg : tu.gender = student.gender)
    (hp : prereqOK db req.student_id req.type = true) :
    (hasNonFailed db req.student_id req.type = true →
      create_course db cu req = Except.error ApiError.duplicateEnrollment) ∧
    (hasNonFailed db req.student_id req.type = false →
      create_course db cu req = Except.ok (newCourseOf db req, enrollState db req school)) := by
  simp only [create_course, hs, ht, hd, hu, hrole, hg, bne_self_eq_false, Bool.false_eq_true,
    if_false]
  cases hty : req.type with
  | code =>
    constructor <;> intro h <;> simp [h]
  | parking =>
    rw [hty] at hp
    simp only [prereqOK] at hp
    constructor <;> intro h <;> simp [h, hp]
  | road =>
    rw [hty] at hp
    simp only [prereqOK] at hp
    constructor <;> intro h <;> simp [h, hp]

/-- C1, witness: the amended guard applied at a concrete state holding
one failed code course, so the re-enrollment is admitted. -/
theorem C1_enroll_guard_witness :
    (dbFailedCode.users.find? (fun u => u.id == codeReqA.student_id) = some studentA ∧
     studentA.role = UserRole.student ∧
     dbFailedCode.teachers.find? (fun t => t.id == codeReqA.teacher_id) = some teacherA ∧
     dbFailedCode.driving_schools.find? (fun s => s.id == codeReqA.driving_school_id) =
       some schoolA ∧
     dbFailedCode.users.find? (fun u => u.id == teacherA.user_id) = some teacherUser ∧
     teacherUser.gender = studentA.gender ∧
     prereqOK dbFailedCode codeReqA.student_id codeReqA.type = true) ∧
    ((hasNonFailed dbFailedCode codeReqA.student_id codeReqA.type = true →
      create_course dbFailedCode managerUser codeReqA =
        Except.error ApiError.duplicateEnrollment) ∧
     (hasNonFailed dbFailedCode codeReqA.student_id codeReqA.type = false →
      create_course dbFailedCode managerUser codeReqA =
        Except.ok (newCourseOf dbFailedCode codeReqA, enrollState dbFailedCode codeReqA schoolA))) :=
  ⟨by decide,
    C1_enroll_guard dbFailedCode managerUser codeReqA studentA teacherA schoolA teacherUser
      (by decide) (by decide) (by decide) (by decide) (by decide) (by decide) (by decide)⟩

/- ## Claim C2: the prerequisite chain -/

/-- C2: for a request that passes the entity, role and gender checks, a
parking enrollment fails with PrerequisiteNotMet when the student has no
completed code course, and can succeed only when one exists; the road
stage behaves analogously over parking; a code enrollment never fails
with PrerequisiteNotMet. -/
theorem C2_prereq_chain (db : DB) (cu : User) (req : CourseCreate)
    (student : User) (teacher : Teacher) (school : DrivingSchool) (tu : User)
    (hs : db.users.find? (fun u => u.id == req.student_id) = some student)
    (hrole : student.role = UserRole.student)
    (ht : db.teachers.find? (fun t => t.id == req.teacher_id) = some teacher)
    (hd : db.driving_schools.find? (fun s => s.id == req.driving_school_id) = some school)
    (hu : db.users.find? (fun u => u.id == teacher.user_id) = some tu)
    (hg : tu.gender = student.gender) :
    (req.type = CourseType.parking →
      (hasCompleted db req.student_id CourseType.code = false →
        create_course db cu req = Except.error ApiError.prerequisiteNotMet) ∧
      (exceptIsOk (create_course db cu req) = true →
        hasCompleted db req.student_id CourseType.code = true)) ∧
    (req.type = CourseType.road →
      (hasCompleted db req.student_id CourseType.parking = false →
        create_course db cu req = Except.error ApiError.prerequisiteNotMet) ∧
      (exceptIsOk (create_course db cu req) = true →
        hasCompleted db req.student_id CourseType.parking = true)) ∧
    (req.type = CourseType.code →
      create_course db cu req ≠ Except.error ApiError.prerequisiteNotMet) := by
  simp only [create_course, hs, ht, hd, hu, hrole, hg, bne_self_eq_false, Bool.false_eq_true,
    if_false]
  refine ⟨fun hty => ?_, fun hty => ?_, fun hty => ?_⟩ <;> rw [hty]
  · constructor
    · intro h; simp [h]
    · intro h
      by_cases hc : hasCompleted db req.student_id CourseType.code
      · exact hc
      · simp [hc, exceptIsOk] at h
  · constructor
    · intro h; simp [h]
    · intro h
      by_cases hc : hasCompleted db req.student_id CourseType.parking
      · exact hc
      · simp [hc, exceptIsOk] at h
  · by_cases hdup : hasNonFailed db req.student_id CourseType.code <;> simp [hdup]

/-- C2, witness: the chain theorem applied at the base state, where a
parking request of a student with no completed code course is rejected
with PrerequisiteNotMet. -/
theorem C2_prereq_chain_witness :
    (baseDB.users.find? (fun u => u.id == parkingReqA.student_id) = some studentA ∧
     studentA.role = UserRole.student ∧
     baseDB.teachers.find? (fun t => t.id == parkingReqA.teacher_id) = some teacherA ∧
     baseDB.driving_schools.find? (fun s => s.id == parkingReqA.driving_school_id) =
       some schoolA ∧
     baseDB.users.find? (fun u => u.id == teacherA.user_id) = some teacherUser ∧
     teacherUser.gender = studentA.gender) ∧
    ((parkingReqA.type = CourseType.parking →
      (hasCompleted baseDB parkingReqA.student_id CourseType.code = false →
        create_course baseDB managerUser parkingReqA = Except.error ApiError.prerequisiteNotMet) ∧
      (exceptIsOk (create_course baseDB managerUser parkingReqA) = true →
        hasCompleted baseDB parkingReqA.student_id CourseType.code = true)) ∧
     (parkingReqA.type = CourseType.road →
      (hasCompleted baseDB parkingReqA.student_id CourseType.parking = false →
        create_course baseDB managerUser parkingReqA = Except.error ApiError.prerequisiteNotMet) ∧
      (exceptIsOk (create_course baseDB managerUser parkingReqA) = true →
        hasCompleted baseDB parkingReqA.student_id CourseType.parking = true)) ∧
     (parkingReqA.type = CourseType.code →
      create_course baseDB managerUser parkingReqA ≠ Except.error ApiError.prerequisiteNotMet)) :=
  ⟨by decide,
    C2_prereq_chain baseDB managerUser parkingReqA studentA teacherA schoolA teacherUser
      (by decide) (by decide) (by decide) (by decide) (by decide) (by decide)⟩

/- ## Claim C8: the gender compatibility gate -/

/-- C8: for a request whose student, teacher, school and teacher-linked
user all resolve, a mismatch between the linked user gender and the
student gender always fails with GenderMismatch, and equal genders (of
any value, including other with other) never produce GenderMismatch:
the test is pure equality with no cross-matching rule. -/
theorem C8_gender_gate (db : DB) (cu : User) (req : CourseCreate)
    (student : User) (teacher : Teacher) (school : DrivingSchool) (tu : User)
    (hs : db.users.find? (fun u => u.id == req.student_id) = some student)
    (hrole : student.role = UserRole.student)
    (ht : db.teachers.find? (fun t => t.id == req.teacher_id) = some teacher)
    (hd : db.driving_schools.find? (fun s => s.id == req.driving_school_id) = some school)
    (hu : db.users.find? (fun u => u.id == teacher.user_id) = some tu) :
    (tu.gender ≠ student.gender →
      create_course db cu req = Except.error ApiError.genderMismatch) ∧
    (tu.gender = student.gender →
      create_course db cu req ≠ Except.error ApiError.genderMismatch) := by
  simp only [create_course, hs, ht, hd, hu, hrole, bne_self_eq_false, Bool.false_eq_true,
    if_false]
  constructor
  · intro h
    simp [bne_iff_ne, h]
  · intro h
    simp only [h, bne_self_eq_false, Bool.false_eq_true, if_false]
    cases req.type <;> split_ifs <;> simp

/-- C8, witness: the gate applied to the female `studentB` paired with
the male-linked `teacherA`, rejected with GenderMismatch. -/
theorem C8_gender_gate_witness :
    (baseDB.users.find? (fun u => u.id == codeReqB.student_id) = some studentB ∧
     studentB.role = UserRole.student ∧
     baseDB.teachers.find? (fun t => t.id == codeReqB.teacher_id) = some teacherA ∧
     baseDB.driving_schools.find? (fun s => s.id == codeReqB.driving_school_id) = some schoolA ∧
     baseDB.users.find? (fun u => u.id == teacherA.user_id) = some teacherUser) ∧
    ((teacherUser.gender ≠ studentB.gender →
      create_course baseDB managerUser codeReqB = Except.error ApiError.genderMismatch) ∧
     (teacherUser.gender = studentB.gender →
      create_course baseDB managerUser codeReqB ≠ Except.error ApiError.genderMismatch)) :=
  ⟨by decide,
    C8_gender_gate baseDB managerUser codeReqB studentB teacherA schoolA teacherUser
      (by decide) (by decide) (by decide) (by decide) (by decide)⟩

/- ## Claim C3: per-slot capacity of the schedule allocator -/

/-- C3, counterexample to the claim as stated: two schedules of parking
courses of the same teacher with overlapping intervals can both exist.
In the reachable scenario `traceOverlap`, a 120-minute booking at minute
540 and a later 60-minute booking at minute 600 are both admitted,
because the conflict query only matches existing schedules whose start
lies inside the requested window, not every interval overlap. -/
theorem C3_overlap_invariant_cex :
    exceptIsOk traceOverlap = true ∧
    hasOverlappingPracticalPair (dbOf traceOverlap) 10 = true := by decide

/-- C3 (amended): for a booking that passes the role and lookup checks,
with the conflict window `[hourFloor start, hourFloor start + duration)`,
a parking or road booking is rejected with SlotTaken exactly when some
existing schedule of the teacher (of any course type) starts inside the
window, and a code booking is rejected with CapacityExceeded exactly
when at least 20 existing schedules of the teacher start inside the
window (so the 20th concurrent booking is admitted and the 21st is
rejected, and a booking starting at the instant an hour-aligned earlier
schedule ends is admitted). -/
theorem C3_slot_capacity (db : DB) (cu : User) (req : ScheduleCreate) (course : Course)
    (hro : cu.role = UserRole.manager)
    (hc : db.courses.find? (fun c => c.id == req.course_id) = some course)
    (ht : (db.teachers.find? (fun t => t.id == course.teacher_id)).isSome = true) :
    (course.type ≠ CourseType.code →
      (create_schedule db cu req = Except.error ApiError.slotTaken ↔
        windowSchedules db course.teacher_id (hourFloor req.date)
          (hourFloor req.date + req.duration_minutes) ≠ [])) ∧
    (course.type = CourseType.code →
      (create_schedule db cu req = Except.error ApiError.capacityExceeded ↔
        20 ≤ (windowSchedules db course.teacher_id (hourFloor req.date)
          (hourFloor req.date + req.duration_minutes)).length)) := by
  obtain ⟨tch, htch⟩ := Option.isSome_iff_exists.mp ht
  have hne : teacherCourseIds db course.teacher_id ≠ [] :=
    teacherCourseIds_ne_nil db course (List.mem_of_find?_eq_some hc)
  simp only [create_schedule, hro, hc, htch, List.isEmpty_iff, hne, if_false]
  refine ⟨fun hnc => ?_, fun hcode => ?_⟩
  · have hcb : (course.type == CourseType.code) = false := beq_eq_false_iff_ne.mpr hnc
    by_cases hw : windowSchedules db course.teacher_id (hourFloor req.date)
        (hourFloor req.date + req.duration_minutes) = []
    · rw [hw]
      simp only [hcb, Bool.false_eq_true, if_false]
      simp only [List.isEmpty_nil, Bool.not_true, Bool.false_eq_true, if_false]
      simp only [ne_eq, not_true_eq_false, iff_false]
      split_ifs <;> simp
    · have hwe : (windowSchedules db course.teacher_id (hourFloor req.date)
          (hourFloor req.date + req.duration_minutes)).isEmpty = false := by
        simpa [List.isEmpty_iff] using hw
      simp [hcb, hwe, hw]
  · have hcb : (course.type == CourseType.code) = true := beq_iff_eq.mpr hcode
    simp only [hcb, if_true]
    by_cases hlen : 20 ≤ (windowSchedules db course.teacher_id (hourFloor req.date)
        (hourFloor req.date + req.duration_minutes)).length <;> simp [hlen]

/-- C3, witness: the slot rule applied to a concrete parking booking in
a state with no schedules, so the window is empty and the booking is not
rejected with SlotTaken. -/
theorem C3_slot_capacity_witness :
    (managerUser.role = UserRole.manager ∧
     dbWithParking.courses.find? (fun c => c.id == bookReqA.course_id) = some parkingCourseA ∧
     (dbWithParking.teachers.find? (fun t => t.id == parkingCourseA.teacher_id)).isSome = true) ∧
    ((parkingCourseA.type ≠ CourseType.code →
      (create_schedule dbWithParking managerUser bookReqA = Except.error ApiError.slotTaken ↔
        windowSchedules dbWithParking parkingCourseA.teacher_id (hourFloor bookReqA.date)
          (hourFloor bookReqA.date + bookReqA.duration_minutes) ≠ [])) ∧
     (parkingCourseA.type = CourseType.code →
      (create_schedule dbWithParking managerUser bookReqA =
          Except.error ApiError.capacityExceeded ↔
        20 ≤ (windowSchedules dbWithParking parkingCourseA.teacher_id (hourFloor bookReqA.date)
          (hourFloor bookReqA.date + bookReqA.duration_minutes)).length))) :=
  ⟨by decide,
    C3_slot_capacity dbWithParking managerUser bookReqA parkingCourseA
      (by decide) (by decide) (by decide)⟩

/- ## Claim C4: start-time normalization and the persisted schedule -/

/-- C4, counterexample to the claim as stated: the persisted Schedule
carries the raw requested start time, not the normalized one. In the
reachable scenario `traceRawDate`, booking at minute 570 succeeds and the
stored schedule has date 570, while the normalized top of the hour is
540. -/
theorem C4_raw_persist_cex :
    exceptIsOk traceRawDate = true ∧ (schedOf traceRawDate).date = 570 ∧
    hourFloor (schedOf traceRawDate).date ≠ (schedOf traceRawDate).date := by decide

/-- C4 (amended): `create_schedule` normalizes the requested start to the
top of the hour for conflict checking only — admission or rejection is
unchanged by moving the requested start anywhere within the same hour —
and on success the persisted Schedule carries the un-normalized requested
start time together with the requested duration. -/
theorem C4_raw_persist (db : DB) (cu : User) (req : ScheduleCreate) (course : Course)
    (hro : cu.role = UserRole.manager)
    (hc : db.courses.find? (fun c => c.id == req.course_id) = some course)
    (ht : (db.teachers.find? (fun t => t.id == course.teacher_id)).isSome = true)
    (d2 : Int) (hd2 : hourFloor d2 = hourFloor req.date) :
    (∀ s db2, create_schedule db cu req = Except.ok (s, db2) →
      s.date = req.date ∧ s.duration_minutes = req.duration_minutes ∧
      db2.schedules = db.schedules ++ [s]) ∧
    exceptIsOk (create_schedule db cu { req with date := d2 }) =
      exceptIsOk (create_schedule db cu req) := by
  obtain ⟨tch, htch⟩ := Option.isSome_iff_exists.mp ht
  have hne : teacherCourseIds db course.teacher_id ≠ [] :=
    teacherCourseIds_ne_nil db course (List.mem_of_find?_eq_some hc)
  constructor
  · intro s db2 hok
    simp only [create_schedule, hro, hc, htch, List.isEmpty_iff, hne, if_false] at hok
    split_ifs at hok <;>
      (simp only [Except.ok.injEq, Prod.mk.injEq] at hok
       obtain ⟨hs1, hdb⟩ := hok
       subst hs1
       subst hdb
       simp [newScheduleOf, bookState])
  · simp only [create_schedule, hro, hc, htch, List.isEmpty_iff, hne, if_false, hd2]
    split_ifs <;> rfl

/-- C4, witness: the rule applied to a concrete booking at minute 570,
compared against minute 599 inside the same hour. -/
theorem C4_raw_persist_witness :
    (managerUser.role = UserRole.manager ∧
     dbWithParking.courses.find? (fun c => c.id == bookReqB.course_id) = some parkingCourseA ∧
     (dbWithParking.teachers.find? (fun t => t.id == parkingCourseA.teacher_id)).isSome = true ∧
     hourFloor 599 = hourFloor bookReqB.date) ∧
    ((∀ s db2, create_schedule dbWithParking managerUser bookReqB = Except.ok (s, db2) →
      s.date = bookReqB.date ∧ s.duration_minutes = bookReqB.duration_minutes ∧
      db2.schedules = dbWithParking.schedules ++ [s]) ∧
     exceptIsOk (create_schedule dbWithParking managerUser { bookReqB with date := 599 }) =
       exceptIsOk (create_schedule dbWithParking managerUser bookReqB)) :=
  ⟨by decide,
    C4_raw_persist dbWithParking managerUser bookReqB parkingCourseA
      (by decide) (by decide) (by decide) 599 (by decide)⟩

/- ## Claim C5: per-day capacity of the schedule allocator -/

/-- C5: the daily capacity rule of `create_schedule`. For a booking that
passes the role and lookup checks, with the day starting at midnight of
the normalized start: a parking booking whose window is free is rejected
with DailyCapacityExceeded when the teacher already holds 3 or more
parking-course schedules that day (counted across all that teachers
courses), and symmetrically for road; a code booking is never rejected
with DailyCapacityExceeded; and a successful parking or road booking
implies the prior same-day count of that type was below 3, so a teacher
never exceeds 3 per type per day through this endpoint. -/
theorem C5_daily_cap (db : DB) (cu : User) (req : ScheduleCreate) (course : Course)
    (hro : cu.role = UserRole.manager)
    (hc : db.courses.find? (fun c => c.id == req.course_id) = some course)
    (ht : (db.teachers.find? (fun t => t.id == course.teacher_id)).isSome = true) :
    (course.type = CourseType.parking →
      windowSchedules db course.teacher_id (hourFloor req.date)
        (hourFloor req.date + req.duration_minutes) = [] →
      3 ≤ dayTypeCount db course.teacher_id (dayFloor (hourFloor req.date)) CourseType.parking →
      create_schedule db cu req = Except.error ApiError.dailyCapacityExceeded) ∧
    (course.type = CourseType.road →
      windowSchedules db course.teacher_id (hourFloor req.date)
        (hourFloor req.date + req.duration_minutes) = [] →
      3 ≤ dayTypeCount db course.teacher_id (dayFloor (hourFloor req.date)) CourseType.road →
      create_schedule db cu req = Except.error ApiError.dailyCapacityExceeded) ∧
    (course.type = CourseType.code →
      create_schedule db cu req ≠ Except.error ApiError.dailyCapacityExceeded) ∧
    (course.type = CourseType.parking →
      ∀ s db2, create_schedule db cu req = Except.ok (s, db2) →
        dayTypeCount db course.teacher_id (dayFloor (hourFloor req.date)) CourseType.parking < 3) ∧
    (course.type = CourseType.road →
      ∀ s db2, create_schedule db cu req = Except.ok (s, db2) →
        dayTypeCount db course.teacher_id (dayFloor (hourFloor req.date)) CourseType.road < 3) := by
  obtain ⟨tch, htch⟩ := Option.isSome_iff_exists.mp ht
  have hne : teacherCourseIds db course.teacher_id ≠ [] :=
    teacherCourseIds_ne_nil db course (List.mem_of_find?_eq_some hc)
  simp only [create_schedule, hro, hc, htch, List.isEmpty_iff, hne, if_false]
  refine ⟨fun hty hw hcnt => ?_, fun hty hw hcnt => ?_, fun hty => ?_,
    fun hty s db2 hok => ?_, fun hty s db2 hok => ?_⟩
  · rw [hw]
    simp [hty, hcnt]
  · rw [hw]
    simp [hty, hcnt]
  · simp only [hty]
    split_ifs <;> simp_all
  · by_cases hcnt : 3 ≤ dayTypeCount db course.teacher_id (dayFloor (hourFloor req.date))
        CourseType.parking
    · exfalso
      by_cases hw : windowSchedules db course.teacher_id (hourFloor req.date)
          (hourFloor req.date + req.duration_minutes) = []
      · rw [hw] at hok
        simp [hty, hcnt] at hok
      · have hwe : (windowSchedules db course.teacher_id (hourFloor req.date)
            (hourFloor req.date + req.duration_minutes)).isEmpty = false := by
          simpa [List.isEmpty_iff] using hw
        simp [hty, hwe] at hok
    · omega
  · by_cases hcnt : 3 ≤ dayTypeCount db course.teacher_id (dayFloor (hourFloor req.date))
        CourseType.road
    · exfalso
      by_cases hw : windowSchedules db course.teacher_id (hourFloor req.date)
          (hourFloor req.date + req.duration_minutes) = []
      · rw [hw] at hok
        simp [hty, hcnt] at hok
      · have hwe : (windowSchedules db course.teacher_id (hourFloor req.date)
            (hourFloor req.date + req.duration_minutes)).isEmpty = false := by
          simpa [List.isEmpty_iff] using hw
        simp [hty, hwe] at hok
    · omega

/-- C5, witness: the daily rule applied to a concrete parking booking in
a state with no schedules that day. -/
theorem C5_daily_cap_witness :
    (managerUser.role = UserRole.manager ∧
     dbWithParking.courses.find? (fun c => c.id == bookReqA.course_id) = some parkingCourseA ∧
     (dbWithParking.teachers.find? (fun t => t.id == parkingCourseA.teacher_id)).isSome = true) ∧
    ((parkingCourseA.type = CourseType.parking →
      windowSchedules dbWithParking parkingCourseA.teacher_id (hourFloor bookReqA.date)
        (hourFloor bookReqA.date + bookReqA.duration_minutes) = [] →
      3 ≤ dayTypeCount dbWithParking parkingCourseA.teacher_id
        (dayFloor (hourFloor bookReqA.date)) CourseType.parking →
      create_schedule dbWithParking managerUser bookReqA =
        Except.error ApiError.dailyCapacityExceeded) ∧
     (parkingCourseA.type = CourseType.road →
      windowSchedules dbWithParking parkingCourseA.teacher_id (hourFloor bookReqA.date)
        (hourFloor bookReqA.date + bookReqA.duration_minutes) = [] →
      3 ≤ dayTypeCount dbWithParking parkingCourseA.teacher_id
        (dayFloor (hourFloor bookReqA.date)) CourseType.road →
      create_schedule dbWithParking managerUser bookReqA =
        Except.error ApiError.dailyCapacityExceeded) ∧
     (parkingCourseA.type = CourseType.code →
      create_schedule dbWithParking managerUser bookReqA ≠
        Except.error ApiError.dailyCapacityExceeded) ∧
     (parkingCourseA.type = CourseType.parking →
      ∀ s db2, create_schedule dbWithParking managerUser bookReqA = Except.ok (s, db2) →
        dayTypeCount dbWithParking parkingCourseA.teacher_id
          (dayFloor (hourFloor bookReqA.date)) CourseType.parking < 3) ∧
     (parkingCourseA.type = CourseType.road →
      ∀ s db2, create_schedule dbWithParking managerUser bookReqA = Except.ok (s, db2) →
        dayTypeCount dbWithParking parkingCourseA.teacher_id
          (dayFloor (hourFloor bookReqA.date)) CourseType.road < 3)) :=
  ⟨by decide,
    C5_daily_cap dbWithParking managerUser bookReqA parkingCourseA
      (by decide) (by decide) (by decide)⟩

/- ## Helper lemmas for the update handlers -/

theorem propagate_passed (cid : Nat) (l : List Course) :
    propagateExamOutcome ExamStatus.passed cid l =
      updateFirst (fun c => c.id == cid)
        (fun c => { c with status := CourseStatus.completed }) l := rfl

theorem propagate_failed (cid : Nat) (l : List Course) :
    propagateExamOutcome ExamStatus.failed cid l =
      updateFirst (fun c => c.id == cid)
        (fun c => { c with status := CourseStatus.failed }) l := rfl

theorem propagate_scheduled (cid : Nat) (l : List Course) :
    propagateExamOutcome ExamStatus.scheduled cid l = l := rfl

/-- One-step evaluation of `update_exam` when the caller is a manager and
the exam and its course resolve. -/
theorem update_exam_run (db : DB) (cu : User) (eid : Nat) (stat : ExamStatus)
    (sc : Option Rat) (fb : Option String) (exam : Exam) (course : Course)
    (hro : cu.role = UserRole.manager)
    (hex : db.exams.find? (fun e => e.id == eid) = some exam)
    (hco : db.courses.find? (fun c => c.id == exam.course_id) = some course) :
    update_exam db cu eid stat sc fb =
      Except.ok (applyExamUpdate stat sc fb exam,
        { db with
          exams := updateFirst (fun e => e.id == eid) (applyExamUpdate stat sc fb) db.exams
          courses := propagateExamOutcome stat course.id db.courses }) := by
  have hpf : ∀ e : Exam, ((applyExamUpdate stat sc fb e).id == eid) = (e.id == eid) :=
    fun e => rfl
  have href : (updateFirst (fun e => e.id == eid) (applyExamUpdate stat sc fb)
      db.exams).find? (fun e => e.id == eid) = some (applyExamUpdate stat sc fb exam) := by
    rw [updateFirst_find?_self _ _ _ hpf, hex]
    rfl
  simp only [update_exam, hro, hex, hco, href]
  rfl

/-- One-step evaluation of `update_payment` when the caller is an admin
and the payment and its course resolve. -/
theorem update_payment_run (db : DB) (cu : User) (pid : Nat) (stat : PaymentStatus)
    (pay : Payment) (course : Course)
    (hro : cu.role = UserRole.admin)
    (hp : db.payments.find? (fun p => p.id == pid) = some pay)
    (hc : db.courses.find? (fun c => c.id == pay.course_id) = some course) :
    update_payment db cu pid stat =
      Except.ok ({ pay with status := stat },
        { db with
          payments := updateFirst (fun p => p.id == pid)
            (fun p => { p with status := stat }) db.payments
          courses :=
            if stat == PaymentStatus.completed && course.status == CourseStatus.not_started then
              updateFirst (fun c => c.id == course.id)
                (fun c => { c with status := CourseStatus.in_progress }) db.courses
            else db.courses }) := by
  have href : (updateFirst (fun p => p.id == pid) (fun p => { p with status := stat })
      db.payments).find? (fun p => p.id == pid) = some { pay with status := stat } := by
    rw [updateFirst_find?_self (fun p => p.id == pid) (fun p => { p with status := stat })
      db.payments (fun p => rfl), hp]
    rfl
  simp only [update_payment, hro, hp, hc, href]
  rfl

/-- Successful `update_exam` calls change the course list only through
`propagateExamOutcome` applied at some course id. -/
theorem update_exam_ok_shape (db : DB) (cu : User) (eid : Nat) (est : ExamStatus)
    (sc : Option Rat) (fb : Option String) (e2 : Exam) (db2 : DB)
    (hok : update_exam db cu eid est sc fb = Except.ok (e2, db2)) :
    ∃ cid, db2.courses = propagateExamOutcome est cid db.courses := by
  unfold update_exam at hok
  by_cases hr : (!(cu.role == UserRole.manager || cu.role == UserRole.teacher
      || cu.role == UserRole.admin)) = true
  · rw [if_pos hr] at hok
    exact absurd hok (by simp)
  · rw [if_neg hr] at hok
    cases hfe : db.exams.find? (fun e => e.id == eid) with
    | none =>
      simp only [hfe] at hok
      exact absurd hok (by simp)
    | some exam =>
      simp only [hfe] at hok
      cases hfc : db.courses.find? (fun c => c.id == exam.course_id) with
      | none =>
        simp only [hfc] at hok
        exact absurd hok (by simp)
      | some course =>
        simp only [hfc] at hok
        by_cases hrt : (cu.role == UserRole.teacher) = true
        · simp only [hrt, if_true] at hok
          cases hft : db.teachers.find? (fun t => t.user_id == cu.id) with
          | none =>
            simp only [hft] at hok
            exact absurd hok (by simp)
          | some tr =>
            simp only [hft] at hok
            by_cases hoid : (tr.id == course.teacher_id) = true
            · simp only [hoid, Bool.not_true, Bool.false_eq_true, if_false] at hok
              cases hrf : (updateFirst (fun e => e.id == eid) (applyExamUpdate est sc fb)
                  db.exams).find? (fun e => e.id == eid) with
              | none =>
                simp only [hrf] at hok
                exact absurd hok (by simp)
              | some ue =>
                simp only [hrf] at hok
                simp only [Except.ok.injEq, Prod.mk.injEq] at hok
                obtain ⟨h1, h2⟩ := hok
                subst h2
                exact ⟨course.id, rfl⟩
            · rw [Bool.not_eq_true] at hoid
              simp only [hoid, Bool.not_false, if_true] at hok
              exact absurd hok (by simp)
        · rw [Bool.not_eq_true] at hrt
          simp only [hrt, Bool.false_eq_true, if_false, Bool.not_true, if_true] at hok
          cases hrf : (updateFirst (fun e => e.id == eid) (applyExamUpdate est sc fb)
              db.exams).find? (fun e => e.id == eid) with
          | none =>
            simp only [hrf] at hok
            exact absurd hok (by simp)
          | some ue =>
            simp only [hrf] at hok
            simp only [Except.ok.injEq, Prod.mk.injEq] at hok
            obtain ⟨h1, h2⟩ := hok
            subst h2
            exact ⟨course.id, rfl⟩

/-- Successful `update_payment` calls either leave the course list
unchanged, or move the status of the first course with some id to
in_progress. -/
theorem update_payment_ok_shape (db : DB) (cu : User) (pid : Nat) (pst : PaymentStatus)
    (p2 : Payment) (db2 : DB)
    (hok : update_payment db cu pid pst = Except.ok (p2, db2)) :
    db2.courses = db.courses ∨
    ∃ cid, db2.courses = updateFirst (fun c => c.id == cid)
      (fun c => { c with status := CourseStatus.in_progress }) db.courses := by
  unfold update_payment at hok
  cases hfp : db.payments.find? (fun p => p.id == pid) with
  | none =>
    simp only [hfp] at hok
    exact absurd hok (by simp)
  | some pay =>
    simp only [hfp] at hok
    cases hfc : db.courses.find? (fun c => c.id == pay.course_id) with
    | none =>
      simp only [hfc] at hok
      exact absurd hok (by simp)
    | some course =>
      simp only [hfc] at hok
      by_cases hperm : (cu.role != UserRole.admin && cu.role != UserRole.manager
          && cu.id != course.student_id) = true
      · rw [if_pos hperm] at hok
        exact absurd hok (by simp)
      · rw [if_neg hperm] at hok
        by_cases hcond : (pst == PaymentStatus.completed &&
            course.status == CourseStatus.not_started) = true
        · simp only [hcond, if_true] at hok
          cases hrf : (updateFirst (fun p => p.id == pid) (fun p => { p with status := pst })
              db.payments).find? (fun p => p.id == pid) with
          | none =>
            simp only [hrf] at hok
            exact absurd hok (by simp)
          | some up =>
            simp only [hrf] at hok
            simp only [Except.ok.injEq, Prod.mk.injEq] at hok
            obtain ⟨h1, h2⟩ := hok
            subst h2
            exact Or.inr ⟨course.id, rfl⟩
        · rw [Bool.not_eq_true] at hcond
          simp only [hcond, Bool.false_eq_true, if_false] at hok
          cases hrf : (updateFirst (fun p => p.id == pid) (fun p => { p with status := pst })
              db.payments).find? (fun p => p.id == pid) with
          | none =>
            simp only [hrf] at hok
            exact absurd hok (by simp)
          | some up =>
            simp only [hrf] at hok
            simp only [Except.ok.injEq, Prod.mk.injEq] at hok
            obtain ⟨h1, h2⟩ := hok
            subst h2
            exact Or.inl rfl

/-- Exam-outcome propagation changes at most the status field of the
course records. -/
theorem propagate_forall₂ (stat : ExamStatus) (cid : Nat) (l : List Course) :
    List.Forall₂ sameExceptStatus l (propagateExamOutcome stat cid l) := by
  have hrefl : ∀ a : Course, sameExceptStatus a a :=
    fun a => ⟨rfl, rfl, rfl, rfl, rfl, rfl, rfl, rfl⟩
  cases stat with
  | scheduled =>
    rw [propagate_scheduled]
    exact List.forall₂_same.mpr (fun a _ => hrefl a)
  | passed =>
    rw [propagate_passed]
    exact updateFirst_forall₂ sameExceptStatus _ _ l hrefl
      (fun a => ⟨rfl, rfl, rfl, rfl, rfl, rfl, rfl, rfl⟩)
  | failed =>
    rw [propagate_failed]
    exact updateFirst_forall₂ sameExceptStatus _ _ l hrefl
      (fun a => ⟨rfl, rfl, rfl, rfl, rfl, rfl, rfl, rfl⟩)

/- ## Claim C6: exam outcome propagation -/

/-- C6: for a manager caller with a resolving exam and owning course,
recording an exam outcome always succeeds; a passed outcome forces the
course status to completed and a failed outcome to failed, regardless of
the prior course status; a scheduled status leaves the course list
untouched; and re-recording the same outcome again returns the same exam
and the same state with no error (idempotent, last write wins). -/
theorem C6_exam_propagation (db : DB) (cu : User) (eid : Nat) (stat : ExamStatus)
    (sc : Option Rat) (fb : Option String) (exam : Exam) (course : Course)
    (hro : cu.role = UserRole.manager)
    (hex : db.exams.find? (fun e => e.id == eid) = some exam)
    (hco : db.courses.find? (fun c => c.id == exam.course_id) = some course) :
    exceptIsOk (update_exam db cu eid stat sc fb) = true ∧
    (∀ e2 db2, update_exam db cu eid stat sc fb = Except.ok (e2, db2) →
      (stat = ExamStatus.passed → courseStatusOf db2 course.id = some CourseStatus.completed) ∧
      (stat = ExamStatus.failed → courseStatusOf db2 course.id = some CourseStatus.failed) ∧
      (stat = ExamStatus.scheduled → db2.courses = db.courses) ∧
      update_exam db2 cu eid stat sc fb = Except.ok (e2, db2)) := by
  have hrun := update_exam_run db cu eid stat sc fb exam course hro hex hco
  have hcid : course.id = exam.course_id := by
    have hp := List.find?_some hco
    simpa using hp
  have hpredc : (fun c : Course => c.id == exam.course_id) = (fun c => c.id == course.id) := by
    funext c
    rw [hcid]
  have hgg : ∀ e, applyExamUpdate stat sc fb (applyExamUpdate stat sc fb e) =
      applyExamUpdate stat sc fb e := by
    intro e
    cases sc <;> cases fb <;> rfl
  refine ⟨by rw [hrun]; rfl, fun e2 db2 hok => ?_⟩
  rw [hrun] at hok
  simp only [Except.ok.injEq, Prod.mk.injEq] at hok
  obtain ⟨he2, hdb2⟩ := hok
  subst he2
  subst hdb2
  refine ⟨fun hstat => ?_, fun hstat => ?_, fun hstat => ?_, ?_⟩
  · subst hstat
    unfold courseStatusOf
    simp only [propagate_passed]
    rw [updateFirst_find?_self (fun c => c.id == course.id)
      (fun c => { c with status := CourseStatus.completed }) db.courses (fun c => rfl),
      ← hpredc, hco]
    rfl
  · subst hstat
    unfold courseStatusOf
    simp only [propagate_failed]
    rw [updateFirst_find?_self (fun c => c.id == course.id)
      (fun c => { c with status := CourseStatus.failed }) db.courses (fun c => rfl),
      ← hpredc, hco]
    rfl
  · subst hstat
    rfl
  · have hex2 : (updateFirst (fun e => e.id == eid) (applyExamUpdate stat sc fb)
        db.exams).find? (fun e => e.id == eid) = some (applyExamUpdate stat sc fb exam) := by
      rw [updateFirst_find?_self (fun e => e.id == eid) (applyExamUpdate stat sc fb)
        db.exams (fun e => rfl), hex]
      rfl
    cases stat with
    | scheduled =>
      have hrun2 := update_exam_run
        ({ db with
            exams := updateFirst (fun e => e.id == eid)
              (applyExamUpdate ExamStatus.scheduled sc fb) db.exams
            courses := propagateExamOutcome ExamStatus.scheduled course.id db.courses })
        cu eid ExamStatus.scheduled sc fb
        (applyExamUpdate ExamStatus.scheduled sc fb exam) course hro hex2 hco
      rw [hrun2]
      rw [updateFirst_idem (fun e => e.id == eid) (applyExamUpdate ExamStatus.scheduled sc fb)
        db.exams (fun e => rfl) hgg]
      simp only [hgg, propagate_scheduled]
    | passed =>
      have hco2 : (propagateExamOutcome ExamStatus.passed course.id db.courses).find?
          (fun c => c.id == exam.course_id) =
          some { course with status := CourseStatus.completed } := by
        rw [propagate_passed, hpredc]
        rw [updateFirst_find?_self (fun c => c.id == course.id)
          (fun c => { c with status := CourseStatus.completed }) db.courses (fun c => rfl),
          ← hpredc, hco]
        rfl
      have hrun2 := update_exam_run
        ({ db with
            exams := updateFirst (fun e => e.id == eid)
              (applyExamUpdate ExamStatus.passed sc fb) db.exams
            courses := propagateExamOutcome ExamStatus.passed course.id db.courses })
        cu eid ExamStatus.passed sc fb
        (applyExamUpdate ExamStatus.passed sc fb exam)
        ({ course with status := CourseStatus.completed }) hro hex2 hco2
      rw [hrun2]
      rw [updateFirst_idem (fun e => e.id == eid) (applyExamUpdate ExamStatus.passed sc fb)
        db.exams (fun e => rfl) hgg]
      simp only [propagate_passed]
      rw [updateFirst_idem (fun c => c.id == course.id)
        (fun c => { c with status := CourseStatus.completed }) db.courses
        (fun c => rfl) (fun c => rfl)]
      simp only [hgg]
    | failed =>
      have hco2 : (propagateExamOutcome ExamStatus.failed course.id db.courses).find?
          (fun c => c.id == exam.course_id) =
          some { course with status := CourseStatus.failed } := by
        rw [propagate_failed, hpredc]
        rw [updateFirst_find?_self (fun c => c.id == course.id)
          (fun c => { c with status := CourseStatus.failed }) db.courses (fun c => rfl),
          ← hpredc, hco]
        rfl
      have hrun2 := update_exam_run
        ({ db with
            exams := updateFirst (fun e => e.id == eid)
              (applyExamUpdate ExamStatus.failed sc fb) db.exams
            courses := propagateExamOutcome ExamStatus.failed course.id db.courses })
        cu eid ExamStatus.failed sc fb
        (applyExamUpdate ExamStatus.failed sc fb exam)
        ({ course with status := CourseStatus.failed }) hro hex2 hco2
      rw [hrun2]
      rw [updateFirst_idem (fun e => e.id == eid) (applyExamUpdate ExamStatus.failed sc fb)
        db.exams (fun e => rfl) hgg]
      simp only [propagate_failed]
      rw [updateFirst_idem (fun c => c.id == course.id)
        (fun c => { c with status := CourseStatus.failed }) db.courses
        (fun c => rfl) (fun c => rfl)]
      simp only [hgg]

/-- C6, witness: recording a passed outcome on the concrete exam of a
not-yet-started course completes the course. -/
theorem C6_exam_propagation_witness :
    (managerUser.role = UserRole.manager ∧
     dbExamPay.exams.find? (fun e => e.id == 80) = some examA ∧
     dbExamPay.courses.find? (fun c => c.id == examA.course_id) = some notStartedCodeCourse) ∧
    (exceptIsOk (update_exam dbExamPay managerUser 80 ExamStatus.passed none none) = true ∧
     (∀ e2 db2, update_exam dbExamPay managerUser 80 ExamStatus.passed none none =
        Except.ok (e2, db2) →
      (ExamStatus.passed = ExamStatus.passed →
        courseStatusOf db2 notStartedCodeCourse.id = some CourseStatus.completed) ∧
      (ExamStatus.passed = ExamStatus.failed →
        courseStatusOf db2 notStartedCodeCourse.id = some CourseStatus.failed) ∧
      (ExamStatus.passed = ExamStatus.scheduled → db2.courses = dbExamPay.courses) ∧
      update_exam db2 managerUser 80 ExamStatus.passed none none = Except.ok (e2, db2))) :=
  ⟨by decide,
    C6_exam_propagation dbExamPay managerUser 80 ExamStatus.passed none none
      examA notStartedCodeCourse (by decide) (by decide) (by decide)⟩

/- ## Claim C7: payment outcome propagation -/

/-- C7: for an admin caller with a resolving payment and owning course,
recording a payment outcome always succeeds; recording completed while
the course status is exactly not_started moves the course to in_progress;
every other combination (a non-completed payment status, or a course
already past not_started) leaves the course list untouched. -/
theorem C7_payment_propagation (db : DB) (cu : User) (pid : Nat) (stat : PaymentStatus)
    (pay : Payment) (course : Course)
    (hro : cu.role = UserRole.admin)
    (hp : db.payments.find? (fun p => p.id == pid) = some pay)
    (hc : db.courses.find? (fun c => c.id == pay.course_id) = some course) :
    exceptIsOk (update_payment db cu pid stat) = true ∧
    (∀ p2 db2, update_payment db cu pid stat = Except.ok (p2, db2) →
      (stat = PaymentStatus.completed → course.status = CourseStatus.not_started →
        courseStatusOf db2 course.id = some CourseStatus.in_progress) ∧
      ((stat ≠ PaymentStatus.completed ∨ course.status ≠ CourseStatus.not_started) →
        db2.courses = db.courses)) := by
  have hrun := update_payment_run db cu pid stat pay course hro hp hc
  have hcid : course.id = pay.course_id := by
    have hq := List.find?_some hc
    simpa using hq
  have hpredc : (fun c : Course => c.id == pay.course_id) = (fun c => c.id == course.id) := by
    funext c
    rw [hcid]
  refine ⟨by rw [hrun]; rfl, fun p2 db2 hok => ?_⟩
  rw [hrun] at hok
  simp only [Except.ok.injEq, Prod.mk.injEq] at hok
  obtain ⟨hp2, hdb2⟩ := hok
  subst hp2
  subst hdb2
  constructor
  · intro hstat hcs
    subst hstat
    unfold courseStatusOf
    simp only [hcs]
    simp only [beq_self_eq_true, Bool.and_self, if_true]
    rw [updateFirst_find?_self (fun c => c.id == course.id)
      (fun c => { c with status := CourseStatus.in_progress }) db.courses (fun c => rfl),
      ← hpredc, hc]
    rfl
  · intro hne
    have hcond : (stat == PaymentStatus.completed &&
        course.status == CourseStatus.not_started) = false := by
      rcases hne with hne | hne <;> simp [hne]
    simp only [hcond, Bool.false_eq_true, if_false]

/-- C7, witness: recording a completed payment on the concrete pending
payment of a not-yet-started course starts the course. -/
theorem C7_payment_propagation_witness :
    (adminUser.role = UserRole.admin ∧
     dbExamPay.payments.find? (fun p => p.id == 90) = some paymentA ∧
     dbExamPay.courses.find? (fun c => c.id == paymentA.course_id) =
       some notStartedCodeCourse) ∧
    (exceptIsOk (update_payment dbExamPay adminUser 90 PaymentStatus.completed) = true ∧
     (∀ p2 db2, update_payment dbExamPay adminUser 90 PaymentStatus.completed =
        Except.ok (p2, db2) →
      (PaymentStatus.completed = PaymentStatus.completed →
        notStartedCodeCourse.status = CourseStatus.not_started →
        courseStatusOf db2 notStartedCodeCourse.id = some CourseStatus.in_progress) ∧
      ((PaymentStatus.completed ≠ PaymentStatus.completed ∨
        notStartedCodeCourse.status ≠ CourseStatus.not_started) →
        db2.courses = dbExamPay.courses))) :=
  ⟨by decide,
    C7_payment_propagation dbExamPay adminUser 90 PaymentStatus.completed
      paymentA notStartedCodeCourse (by decide) (by decide) (by decide)⟩

/- ## Claim C9: role gating of the exposed operations -/

/-- C9, counterexample to the claim as stated: enroll-in-course performs
no caller check at all. The unrelated student `studentB` successfully
enrolls `studentA` in a course, receiving no Forbidden, and the outcome
of `create_course` is identical for every authenticated caller. -/
theorem C9_enroll_ungated_cex :
    exceptIsOk (create_course baseDB studentB codeReqA) = true ∧
    create_course baseDB studentB codeReqA = create_course baseDB studentA codeReqA :=
  ⟨by decide, rfl⟩

/-- C9 (amended): only book-slot is role-gated with Forbidden as
claimed — a student caller of create_schedule receives Forbidden, and so
does a teacher caller booking a course whose teacher is not their own
record. The two update handlers do reject unauthorized callers without
writing anything, but not with Forbidden: because their `status`
parameter shadows the fastapi status module, a student caller of
update_exam and a caller of update_payment who is neither admin, manager
nor the owning student each crash the handler while it builds the
403 response, surfacing an internal server error. Enroll-in-course is
not gated at all: `create_course` never reads the caller, so its outcome
is the same for every authenticated caller and no role is ever rejected
with Forbidden. -/
theorem C9_role_gating (db : DB) (sreq : ScheduleCreate) (eid pid : Nat)
    (est : ExamStatus) (sc : Option Rat) (fb : Option String) (pst : PaymentStatus)
    (stu : User) (hstu : stu.role = UserRole.student) :
    create_schedule db stu sreq = Except.error ApiError.forbidden ∧
    update_exam db stu eid est sc fb = Except.error ApiError.internalError ∧
    (∀ (tcu : User) (course : Course) (tr : Teacher),
      tcu.role = UserRole.teacher →
      db.courses.find? (fun c => c.id == sreq.course_id) = some course →
      (db.teachers.find? (fun t => t.id == course.teacher_id)).isSome = true →
      db.teachers.find? (fun t => t.user_id == tcu.id) = some tr →
      (tr.id == course.teacher_id) = false →
      create_schedule db tcu sreq = Except.error ApiError.forbidden) ∧
    (∀ (pay : Payment) (course : Course),
      db.payments.find? (fun p => p.id == pid) = some pay →
      db.courses.find? (fun c => c.id == pay.course_id) = some course →
      stu.id ≠ course.student_id →
      update_payment db stu pid pst = Except.error ApiError.internalError) ∧
    (∀ (cu1 cu2 : User) (creq : CourseCreate),
      create_course db cu1 creq = create_course db cu2 creq) := by
  refine ⟨?_, ?_, ?_, ?_, fun cu1 cu2 creq => rfl⟩
  · simp [create_schedule, hstu]
  · simp [update_exam, hstu]
  · intro tcu course tr htr hcrs hts htrec hne
    obtain ⟨tch, htch⟩ := Option.isSome_iff_exists.mp hts
    simp [create_schedule, htr, hcrs, htch, htrec, hne]
  · intro pay course hpay hcrs hne
    have hbne : (stu.id != course.student_id) = true := by
      simp [bne_iff_ne, hne]
    simp [update_payment, hpay, hcrs, hstu, hbne]

/-- C9, witness: the gating facts applied at the base state with the
student `studentA` as caller. -/
theorem C9_role_gating_witness :
    studentA.role = UserRole.student ∧
    (create_schedule baseDB studentA bookReqA = Except.error ApiError.forbidden ∧
     update_exam baseDB studentA 80 ExamStatus.passed none none =
       Except.error ApiError.internalError ∧
     (∀ (tcu : User) (course : Course) (tr : Teacher),
      tcu.role = UserRole.teacher →
      baseDB.courses.find? (fun c => c.id == bookReqA.course_id) = some course →
      (baseDB.teachers.find? (fun t => t.id == course.teacher_id)).isSome = true →
      baseDB.teachers.find? (fun t => t.user_id == tcu.id) = some tr →
      (tr.id == course.teacher_id) = false →
      create_schedule baseDB tcu bookReqA = Except.error ApiError.forbidden) ∧
     (∀ (pay : Payment) (course : Course),
      baseDB.payments.find? (fun p => p.id == 90) = some pay →
      baseDB.courses.find? (fun c => c.id == pay.course_id) = some course →
      studentA.id ≠ course.student_id →
      update_payment baseDB studentA 90 PaymentStatus.completed =
        Except.error ApiError.internalError) ∧
     (∀ (cu1 cu2 : User) (creq : CourseCreate),
      create_course baseDB cu1 creq = create_course baseDB cu2 creq)) :=
  ⟨by decide,
    C9_role_gating baseDB bookReqA 80 90 ExamStatus.passed none none
      PaymentStatus.completed studentA (by decide)⟩

/- ## Claim C10: frame of the course record across the operations -/

/-- C10, counterexample to the claim as stated: enrollment can set
start_date. The request model carries optional start and completion
dates, and `create_course` copies them into the created course: enrolling
with an explicit start date of 123 succeeds and yields a course whose
start_date is some 123, not none. -/
theorem C10_frame_cex :
    exceptIsOk (create_course baseDB managerUser codeReqDated) = true ∧
    (courseOf (create_course baseDB managerUser codeReqDated)).start_date = some 123 := by
  decide

/-- C10 (amended): a course created from a request that leaves the
optional date fields unset has start_date and completion_date none (the
fields are copied from the request, whose defaults are none); and both
update_exam and update_payment leave every course field except status
unchanged — the old and new course lists agree pointwise on id, type,
student, teacher, school, dates and meeting link. -/
theorem C10_frame (db : DB) (cu : User) (creq : CourseCreate) (eid pid : Nat)
    (est : ExamStatus) (sc : Option Rat) (fb : Option String) (pst : PaymentStatus)
    (hsd : creq.start_date = none) (hcd : creq.completion_date = none) :
    (∀ c db2, create_course db cu creq = Except.ok (c, db2) →
      c.start_date = none ∧ c.completion_date = none) ∧
    (∀ e2 db2, update_exam db cu eid est sc fb = Except.ok (e2, db2) →
      List.Forall₂ sameExceptStatus db.courses db2.courses) ∧
    (∀ p2 db2, update_payment db cu pid pst = Except.ok (p2, db2) →
      List.Forall₂ sameExceptStatus db.courses db2.courses) := by
  refine ⟨?_, ?_, ?_⟩
  · intro c db2 hok
    unfold create_course at hok
    repeat' split at hok
    all_goals
      first
      | (simp only [Except.ok.injEq, Prod.mk.injEq] at hok
         obtain ⟨h1, h2⟩ := hok
         subst h1
         simp [newCourseOf, hsd, hcd])
      | simp at hok
  · intro e2 db2 hok
    obtain ⟨cid, hcrs⟩ := update_exam_ok_shape db cu eid est sc fb e2 db2 hok
    rw [hcrs]
    exact propagate_forall₂ _ _ _
  · intro p2 db2 hok
    rcases update_payment_ok_shape db cu pid pst p2 db2 hok with hsame | ⟨cid, hcrs⟩
    · rw [hsame]
      exact List.forall₂_same.mpr (fun a _ => ⟨rfl, rfl, rfl, rfl, rfl, rfl, rfl, rfl⟩)
    · rw [hcrs]
      exact updateFirst_forall₂ sameExceptStatus _ _ _
        (fun a => ⟨rfl, rfl, rfl, rfl, rfl, rfl, rfl, rfl⟩)
        (fun a => ⟨rfl, rfl, rfl, rfl, rfl, rfl, rfl, rfl⟩)

/-- C10, witness: the frame facts applied to the default enrollment
request and the concrete exam and payment updates. -/
theorem C10_frame_witness :
    (codeReqA.start_date = none ∧ codeReqA.completion_date = none) ∧
    ((∀ c db2, create_course dbExamPay managerUser codeReqA = Except.ok (c, db2) →
      c.start_date = none ∧ c.completion_date = none) ∧
     (∀ e2 db2, update_exam dbExamPay managerUser 80 ExamStatus.passed none none =
        Except.ok (e2, db2) →
      List.Forall₂ sameExceptStatus dbExamPay.courses db2.courses) ∧
     (∀ p2 db2, update_payment dbExamPay managerUser 90 PaymentStatus.completed =
        Except.ok (p2, db2) →
      List.Forall₂ sameExceptStatus dbExamPay.courses db2.courses)) :=
  ⟨by decide,
    C10_frame dbExamPay managerUser codeReqA 80 90 ExamStatus.passed none none
      PaymentStatus.completed (by decide) (by decide)⟩
